import Mathlib

/-!
# Verification of the dsmpartsfinder multi-source part-fetching core

This file is a shallow embedding, in Lean 4, of the three marketplace
adapters of the dsmpartsfinder repository:

* `KleinanzeigenClient` (scraped-listing adapter, `kleinanzeigenScraper.go`),
* `SchadeAutosClient`   (form-search adapter, `schadeAutosClient.go`),
* `EbayClient`          (token-authenticated adapter, `ebayClient.go`),

together with the shared `Part` / `SearchParams` contract
(`siteclients.go`).  Network effects are modelled by explicit oracles:
a page oracle mapping a page number (or offset) to the outcome of that
HTTP request, and an image oracle mapping the requested image URL to an
optional base64 payload.  Everything else (pagination loops, field
extraction, date parsing, limit handling) is translated directly from
the Go source.  Go runtime panics (nil-pointer dereference) are kept
distinct from error returns via the `FetchOutcome` type, because the
form-search adapter can actually panic.

Go `time.Time` is modelled by the wall-clock record `GoTime`; `time.Parse`
is reimplemented for exactly the layout strings appearing in the source
("15:04", "02.01.2006", "2.1.2006", "02.01.2006, 15:04", "2.1.2006, 15:04",
"2006-01-02", "2006-01-02 15:04:05", "02-01-2006", "02/01/2006"),
including Go's digit-count rules (a zero-padded layout field consumes
exactly two digits, an unpadded one consumes one or two) and Go's range
validation of month, day, hour, minute and second.
-/

namespace DsmPartsFinder

/-- Wall-clock time, the shallow embedding of Go `time.Time` as used by the
adapters: year/month/day/hour/minute/second plus a location tag (`time.Parse`
results carry `"UTC"`, like Go). Sub-second precision is never consulted by
the source and is omitted. -/
structure GoTime where
  year : Int
  month : Nat
  day : Nat
  hour : Nat
  minute : Nat
  second : Nat
  loc : String
  deriving DecidableEq, Repr

/-- Go `time.Time.IsZero`: the zero time is January 1, year 1, 00:00:00.
The hour/minute/second fields are tested first so that the test reduces
even when the date fields are symbolic. -/
def GoTime.isZero (t : GoTime) : Bool :=
  t.hour == 0 && t.minute == 0 && t.second == 0 &&
    t.day == 1 && t.month == 1 && t.year == 1

/-- Gregorian leap-year rule, as in Go's `time` package. -/
def isLeapYear (y : Int) : Bool :=
  y % 4 == 0 && (y % 100 != 0 || y % 400 == 0)

/-- Number of days of month `m` (1-12) in year `y`, as in Go's `time` package. -/
def daysInMonth (y : Int) (m : Nat) : Nat :=
  if m = 2 then (if isLeapYear y then 29 else 28)
  else if m = 4 ∨ m = 6 ∨ m = 9 ∨ m = 11 then 30
  else 31

/-- Go `now.AddDate(0, 0, -1)` for a calendar-valid `now`: the previous day. -/
def GoTime.prevDay (t : GoTime) : GoTime :=
  if t.day > 1 then { t with day := t.day - 1 }
  else if t.month > 1 then
    { t with month := t.month - 1, day := daysInMonth t.year (t.month - 1) }
  else
    { t with year := t.year - 1, month := 12, day := 31 }

/-! ## Character-level helpers for Go `time.Parse` -/

/-- Numeric value of a decimal digit character, if it is one. -/
def digitVal (c : Char) : Option Nat :=
  if c.isDigit then some (c.toNat - 48) else none

/-- Go `getnum` with `fixed = true` (zero-padded layout fields such as
"02", "01", "04", "05"): consume exactly two digits. -/
def getnum2 : List Char → Option (Nat × List Char)
  | c1 :: c2 :: rest =>
    match digitVal c1, digitVal c2 with
    | some d1, some d2 => some (d1 * 10 + d2, rest)
    | _, _ => none
  | _ => none

/-- Go `getnum` with `fixed = false` (unpadded layout fields such as
"2", "1", "15"): consume one digit, or two when the next character is
also a digit. -/
def getnum12 : List Char → Option (Nat × List Char)
  | [] => none
  | c1 :: rest =>
    match digitVal c1 with
    | none => none
    | some d1 =>
      match rest with
      | c2 :: rest2 =>
        match digitVal c2 with
        | some d2 => some (d1 * 10 + d2, rest2)
        | none => some (d1, rest)
      | [] => some (d1, [])

/-- Go layout field "2006" (`stdLongYear`): consume exactly four digits. -/
def getnum4 : List Char → Option (Nat × List Char)
  | c1 :: c2 :: c3 :: c4 :: rest =>
    match digitVal c1, digitVal c2, digitVal c3, digitVal c4 with
    | some d1, some d2, some d3, some d4 =>
      some (((d1 * 10 + d2) * 10 + d3) * 10 + d4, rest)
    | _, _, _, _ => none
  | _ => none

/-- Consume one expected literal character of the layout. -/
def expectChar (ch : Char) : List Char → Option (List Char)
  | c :: rest => if c = ch then some rest else none
  | [] => none

/-- Go's post-parse range validation: month 1-12, day within the month,
hour 0-23, minute and second 0-59.  On success, builds the `time.Parse`
result (location `"UTC"`, as in Go). -/
def mkGoDate (y : Int) (mo d h mi s : Nat) : Option GoTime :=
  if 1 ≤ mo ∧ mo ≤ 12 ∧ 1 ≤ d ∧ d ≤ daysInMonth y mo ∧
      h ≤ 23 ∧ mi ≤ 59 ∧ s ≤ 59 then
    some { year := y, month := mo, day := d, hour := h, minute := mi,
           second := s, loc := "UTC" }
  else none

/-- Go `time.Parse("15:04", s)`: unpadded hour, colon, zero-padded minute,
whole input consumed, ranges checked. Returns (hour, minute). -/
def goParseHM (s : String) : Option (Nat × Nat) :=
  match getnum12 s.toList with
  | none => none
  | some (h, rest) =>
    match expectChar ':' rest with
    | none => none
    | some rest2 =>
      match getnum2 rest2 with
      | some (m, []) => if h ≤ 23 ∧ m ≤ 59 then some (h, m) else none
      | _ => none

/-- The day`sep`month`sep`year core of the layouts "02.01.2006" (`fixed = true`)
and "2.1.2006" (`fixed = false`), with separator `sep`.  Returns
(year, month, day, rest of input). -/
def parseDMYCore (fixed : Bool) (sep : Char) (cs : List Char) :
    Option (Int × Nat × Nat × List Char) :=
  match (if fixed then getnum2 cs else getnum12 cs) with
  | none => none
  | some (d, r1) =>
    match expectChar sep r1 with
    | none => none
    | some r2 =>
      match (if fixed then getnum2 r2 else getnum12 r2) with
      | none => none
      | some (mo, r3) =>
        match expectChar sep r3 with
        | none => none
        | some r4 =>
          match getnum4 r4 with
          | none => none
          | some (y, r5) => some ((y : Int), mo, d, r5)

/-- Go `time.Parse` with layout "02.01.2006" / "2.1.2006" (per `fixed`),
optionally followed by ", 15:04" (per `withTime`); dot-separated,
day first, whole input consumed. -/
def goParseDotDMY (fixed withTime : Bool) (s : String) : Option GoTime :=
  match parseDMYCore fixed '.' s.toList with
  | none => none
  | some (y, mo, d, rest) =>
    if withTime then
      match rest with
      | ',' :: ' ' :: r =>
        match getnum12 r with
        | none => none
        | some (h, r2) =>
          match expectChar ':' r2 with
          | none => none
          | some r3 =>
            match getnum2 r3 with
            | some (mi, []) => mkGoDate y mo d h mi 0
            | _ => none
      | _ => none
    else
      match rest with
      | [] => mkGoDate y mo d 0 0 0
      | _ => none

/-- Go `time.Parse("2006-01-02", s)`: year-month-day, dash-separated,
zero-padded month and day. -/
def goParseYMD (s : String) : Option GoTime :=
  match getnum4 s.toList with
  | none => none
  | some (y, r1) =>
    match expectChar '-' r1 with
    | none => none
    | some r2 =>
      match getnum2 r2 with
      | none => none
      | some (mo, r3) =>
        match expectChar '-' r3 with
        | none => none
        | some r4 =>
          match getnum2 r4 with
          | some (d, []) => mkGoDate (y : Int) mo d 0 0 0
          | _ => none

/-- Go `time.Parse("2006-01-02 15:04:05", s)`. -/
def goParseYMDHMS (s : String) : Option GoTime :=
  match getnum4 s.toList with
  | none => none
  | some (y, r1) =>
    match expectChar '-' r1 with
    | none => none
    | some r2 =>
      match getnum2 r2 with
      | none => none
      | some (mo, r3) =>
        match expectChar '-' r3 with
        | none => none
        | some r4 =>
          match getnum2 r4 with
          | none => none
          | some (d, r5) =>
            match expectChar ' ' r5 with
            | none => none
            | some r6 =>
              match getnum12 r6 with
              | none => none
              | some (h, r7) =>
                match expectChar ':' r7 with
                | none => none
                | some r8 =>
                  match getnum2 r8 with
                  | none => none
                  | some (mi, r9) =>
                    match expectChar ':' r9 with
                    | none => none
                    | some r10 =>
                      match getnum2 r10 with
                      | some (sec, []) => mkGoDate (y : Int) mo d h mi sec
                      | _ => none

/-- Go `time.Parse` with layout "02-01-2006" or "02/01/2006" (per `sep`):
day-month-year, zero-padded, whole input consumed. -/
def goParseSepDMY (sep : Char) (s : String) : Option GoTime :=
  match parseDMYCore true sep s.toList with
  | some (y, mo, d, []) => mkGoDate y mo d 0 0 0
  | _ => none

/-!
## The shared `siteclients` contract (`siteclients.go`)
-/

/-- `siteclients.Part`: the normalized record every adapter produces.
`CreationDate = none` models the Go zero `time.Time`. -/
structure Part where
  ID : String
  Description : String
  TypeName : String
  Name : String
  ImageBase64 : String
  URL : String
  SiteID : Int
  Price : String
  CreationDate : Option GoTime
  deriving DecidableEq, Repr

/-- `siteclients.SearchParams`. -/
structure SearchParams where
  VehicleType : String := ""
  Make : String := ""
  BaseModel : String := ""
  Model : String := ""
  YearFrom : Int := 0
  YearTo : Int := 0
  Offset : Int := 0
  Limit : Int := 0
  deriving DecidableEq, Repr

/-- Outcome of a Go call that may return normally, return an error, or
panic at runtime.  A Go panic (here: nil-pointer dereference) unwinds the
call without returning either a value or an error, so it is kept distinct
from the `err` constructor. -/
inductive FetchOutcome (α : Type) where
  | ok : α → FetchOutcome α
  | err : String → FetchOutcome α
  | panic : String → FetchOutcome α
  deriving DecidableEq, Repr

/-- Whether the outcome is an ordinary Go error return. -/
def FetchOutcome.isErr : FetchOutcome α → Bool
  | .err _ => true
  | _ => false

/-- Whether the outcome is a normal return. -/
def FetchOutcome.isOk : FetchOutcome α → Bool
  | .ok _ => true
  | _ => false

/-- Result of a paginating `FetchParts` run together with the number of
page requests the adapter issued (one per network round trip). -/
structure FetchTrace where
  result : Except String (List Part)
  requests : Nat
  deriving Repr

/-- The Go runtime's message for dereferencing a nil pointer. -/
def nilDerefMsg : String :=
  "runtime error: invalid memory address or nil pointer dereference"

/-!
## String helpers (`strings` package)

These model `strings.HasPrefix`, `strings.TrimPrefix`, `strings.Contains`
and `strings.TrimSpace` over the character list of the string, so that
they reduce definitionally (the built-in byte-position-based `String`
operations do not). -/

/-- `strings.HasPrefix`. -/
def hasPreStr (s pre : String) : Bool :=
  pre.toList.isPrefixOf s.toList

/-- `strings.TrimPrefix`, for callers that already checked the match:
drop the matched leading characters. -/
def trimPreStr (s pre : String) : String :=
  String.mk (s.toList.drop pre.toList.length)

/-- `strings.Contains(s, string(ch))` for a one-character needle. -/
def containsStr (s : String) (ch : Char) : Bool :=
  s.toList.contains ch

/-- Whitespace recognized by `strings.TrimSpace` (the source's selector
texts only ever carry ASCII whitespace). -/
def isSpaceChar (c : Char) : Bool :=
  c == ' ' || c == '\t' || c == '\n' || c == '\r'

/-- `strings.TrimSpace`: strip leading and trailing whitespace. -/
def trimSpaceStr (s : String) : String :=
  String.mk
    (((s.toList.dropWhile isSpaceChar).reverse.dropWhile
        isSpaceChar).reverse)

/-!
## Scraped-listing adapter (`KleinanzeigenClient`)

The page oracle maps a page number to the outcome of fetching and parsing
that search-results page: `Except.error` collapses the transport-level
failures (request creation, connection failure, non-200 status, body read,
HTML parse), `Except.ok` yields the list of `article.aditem` elements.
The image oracle maps the URL at which the image GET is issued to `some`
base64 payload or `none` (network error / non-200).
-/

/-- One `article.aditem` element of a scraped search-results page, holding
exactly the attributes and selector texts `extractPart` reads.  `none`
models a missing attribute; the text selectors yield `""` when absent. -/
structure KAItem where
  dataAdid : Option String
  dataHref : Option String
  title : String
  description : String
  price : String
  imgSrc : Option String
  dateText : String
  deriving DecidableEq, Repr

/-- `KleinanzeigenClient`: private configuration of the scraped adapter
(the `*http.Client` field is modelled by the oracles). -/
structure KleinanzeigenClient where
  baseURL : String
  siteID : Int
  deriving DecidableEq, Repr

/-- `NewKleinanzeigenClient`. -/
def KleinanzeigenClient.new (siteID : Int) : KleinanzeigenClient :=
  { baseURL := "https://www.kleinanzeigen.de", siteID := siteID }

/-- `KleinanzeigenClient.GetName`. -/
def KleinanzeigenClient.GetName (_ : KleinanzeigenClient) : String :=
  "Kleinanzeigen"

/-- `KleinanzeigenClient.GetSiteID`. -/
def KleinanzeigenClient.GetSiteID (c : KleinanzeigenClient) : Int :=
  c.siteID

/-- `itemsPerPage := 25` in `FetchParts`. -/
def KleinanzeigenClient.itemsPerPage : Nat := 25

/-- `maxPages := 100` in `FetchParts`. -/
def KleinanzeigenClient.maxPages : Nat := 100

/-- The URL at which `KleinanzeigenClient.fetchImageAsBase64` issues its
image GET: a protocol-relative URL gets the "https:" scheme, anything
else is used unchanged. -/
def KleinanzeigenClient.imageRequestURL (imageURL : String) : String :=
  if hasPreStr imageURL "//" then "https:" ++ imageURL else imageURL

/-- `KleinanzeigenClient.fetchImageAsBase64`: resolve the URL, then issue
one GET (the image oracle). -/
def KleinanzeigenClient.fetchImageAsBase64 (imgO : String → Option String)
    (imageURL : String) : Option String :=
  imgO (KleinanzeigenClient.imageRequestURL imageURL)

/-- The four dot-separated layouts tried in order by `extractPart`
("02.01.2006", "2.1.2006", "02.01.2006, 15:04", "2.1.2006, 15:04");
the first successful parse wins. -/
def KleinanzeigenClient.parseDotDate (s : String) : Option GoTime :=
  match goParseDotDMY true false s with
  | some t => some t
  | none =>
    match goParseDotDMY false false s with
    | some t => some t
    | none =>
      match goParseDotDMY true true s with
      | some t => some t
      | none => goParseDotDMY false true s

/-- The date-parsing block of `extractPart` (lines 195-245): relative
"Heute, HH:mm" / "Gestern, HH:mm" resolved against `now`, else the
dot-separated absolute layouts; an unparseable or zero result leaves the
creation date zero-valued (`none`) with only a logged warning. -/
def KleinanzeigenClient.parseDateText (now : GoTime) (dateText : String) :
    Option GoTime :=
  if dateText = "" then none
  else
    let cd : Option GoTime :=
      if hasPreStr dateText "Heute, " then
        match goParseHM (trimPreStr dateText "Heute, ") with
        | some (h, m) =>
          some { year := now.year, month := now.month, day := now.day,
                 hour := h, minute := m, second := 0, loc := now.loc }
        | none => none
      else if hasPreStr dateText "Gestern, " then
        match goParseHM (trimPreStr dateText "Gestern, ") with
        | some (h, m) =>
          some { year := now.prevDay.year, month := now.prevDay.month,
                 day := now.prevDay.day, hour := h, minute := m,
                 second := 0, loc := now.loc }
        | none => none
      else if containsStr dateText '.' then
        KleinanzeigenClient.parseDotDate dateText
      else none
    match cd with
    | some t => if t.isZero then none else some t
    | none => none

/-- `KleinanzeigenClient.extractPart`: extract one `Part` from an
`article.aditem` element.  Missing/empty `data-adid`, missing/empty
`data-href` or an empty (trimmed) title abort this item with an error;
a failed image fetch only leaves `ImageBase64` empty. -/
def KleinanzeigenClient.extractPart (c : KleinanzeigenClient)
    (imgO : String → Option String) (now : GoTime) (it : KAItem) :
    Except String Part :=
  let creationDate :=
    KleinanzeigenClient.parseDateText now (trimSpaceStr it.dateText)
  match it.dataAdid with
  | none => Except.error "missing data-adid"
  | some adID =>
    if adID = "" then Except.error "missing data-adid"
    else
      match it.dataHref with
      | none => Except.error "missing data-href"
      | some relativeURL =>
        if relativeURL = "" then Except.error "missing data-href"
        else
          if trimSpaceStr it.title = "" then Except.error "missing title"
          else
            let part : Part :=
              { ID := adID, Description := trimSpaceStr it.description,
                TypeName := "", Name := trimSpaceStr it.title,
                ImageBase64 := "", URL := c.baseURL ++ relativeURL,
                SiteID := c.siteID, Price := trimSpaceStr it.price,
                CreationDate := creationDate }
            match it.imgSrc with
            | some imgSrc =>
              if imgSrc ≠ "" then
                match KleinanzeigenClient.fetchImageAsBase64 imgO imgSrc with
                | some b64 => Except.ok { part with ImageBase64 := b64 }
                | none => Except.ok part
              else Except.ok part
            | none => Except.ok part

/-- The extraction stage of `fetchSinglePage`: each `article.aditem` is
extracted independently and a failing item is skipped (logged warning). -/
def KleinanzeigenClient.fetchSinglePage (c : KleinanzeigenClient)
    (imgO : String → Option String) (now : GoTime) (raw : List KAItem) :
    List Part :=
  raw.filterMap fun it =>
    match c.extractPart imgO now it with
    | Except.ok p => some p
    | Except.error _ => none

/-- The pagination loop of `KleinanzeigenClient.FetchParts` (lines 54-95).
`fuel` counts the remaining admissible iterations (`maxPages - page + 1`);
running out of fuel is exactly the source's `page <= maxPages` loop exit,
which returns the accumulated parts with no error.  Stop conditions, in
source order: transport error on the page (fatal), zero extracted items,
a short page, and the limit check with truncation (note: performed after
the short-page check). -/
def KleinanzeigenClient.fetchLoop (c : KleinanzeigenClient)
    (oracle : Nat → Except String (List KAItem))
    (imgO : String → Option String) (now : GoTime) (lim : Int) :
    Nat → Nat → List Part → Nat → FetchTrace
  | 0, _, acc, reqs => { result := Except.ok acc, requests := reqs }
  | Nat.succ fuel, page, acc, reqs =>
    match oracle page with
    | Except.error e =>
      { result := Except.error
          ("failed to fetch page " ++ toString page ++ ": " ++ e),
        requests := reqs + 1 }
    | Except.ok raw =>
      if (c.fetchSinglePage imgO now raw).length = 0 then
        { result := Except.ok acc, requests := reqs + 1 }
      else if (c.fetchSinglePage imgO now raw).length <
          KleinanzeigenClient.itemsPerPage then
        { result := Except.ok (acc ++ c.fetchSinglePage imgO now raw),
          requests := reqs + 1 }
      else if 0 < lim ∧
          lim ≤ ((acc ++ c.fetchSinglePage imgO now raw).length : Int) then
        { result := Except.ok
            ((acc ++ c.fetchSinglePage imgO now raw).take lim.toNat),
          requests := reqs + 1 }
      else
        KleinanzeigenClient.fetchLoop c oracle imgO now lim fuel (page + 1)
          (acc ++ c.fetchSinglePage imgO now raw) (reqs + 1)

/-- `KleinanzeigenClient.FetchParts`: run the pagination loop from page 1
with an empty accumulator. -/
def KleinanzeigenClient.FetchParts (c : KleinanzeigenClient)
    (oracle : Nat → Except String (List KAItem))
    (imgO : String → Option String) (now : GoTime)
    (params : SearchParams) : FetchTrace :=
  KleinanzeigenClient.fetchLoop c oracle imgO now params.Limit
    KleinanzeigenClient.maxPages 1 [] 0

/-!
## Form-search adapter (`SchadeAutosClient`)

One bulk POST: the oracle is the outcome of that single request
(`Except.error` collapses request creation, connection failure, non-200
status and JSON decode failure).  The `result.stockParts` JSON mapping is
modelled as an association list in the (nondeterministic) iteration order
of the Go map.
-/

/-- `parseEnterDate` (`schadeAutosClient.go` lines 16-36): empty string or
no matching layout yields `nil` (modelled as `none`). -/
def parseEnterDate (dateStr : String) : Option GoTime :=
  if dateStr = "" then none
  else
    match goParseYMD dateStr with
    | some t => some t
    | none =>
      match goParseYMDHMS dateStr with
      | some t => some t
      | none =>
        match goParseSepDMY '-' dateStr with
        | some t => some t
        | none => goParseSepDMY '/' dateStr

/-- `stockPart`: one item of the `result.stockParts` mapping.  The decoded
but never-read fields `Year : interface{}`, `PriceExcl : float64` and
`Nos : []interface{}` are omitted (no claim depends on them and float64
has no faithful executable model). -/
structure StockPart where
  Prefix : String := ""
  Code : String := ""
  Descr : String := ""
  EnterDate : String := ""
  Name : String := ""
  Picture : String := ""
  MakeName : String := ""
  BaseModelName : String := ""
  ModelName : String := ""
  EngineName : String := ""
  Price : String := ""
  deriving DecidableEq, Repr

/-- `schadeAutosResponse.Result` (the `Time : float64` diagnostic field is
omitted; it is only logged). -/
structure SchadeAutosResponse where
  limited : Bool := false
  descr : String := ""
  stockParts : List (String × StockPart) := []
  deriving DecidableEq, Repr

/-- `SchadeAutosClient`: private configuration of the form-search adapter. -/
structure SchadeAutosClient where
  baseURL : String
  siteID : Int
  deriving DecidableEq, Repr

/-- `NewSchadeAutosClient`. -/
def SchadeAutosClient.new (siteID : Int) : SchadeAutosClient :=
  { baseURL := "https://www.schadeautos.nl", siteID := siteID }

/-- `SchadeAutosClient.GetName`. -/
def SchadeAutosClient.GetName (_ : SchadeAutosClient) : String :=
  "SchadeAutos"

/-- `SchadeAutosClient.GetSiteID`. -/
def SchadeAutosClient.GetSiteID (c : SchadeAutosClient) : Int :=
  c.siteID

/-- `SchadeAutosClient.buildPartURL`. -/
def SchadeAutosClient.buildPartURL (c : SchadeAutosClient)
    (partID : String) : String :=
  c.baseURL ++ "/parts/eng/part/" ++ partID

/-- The URL at which `SchadeAutosClient.fetchImageAsBase64` issues its
image GET: protocol-relative URLs get "https:", host-relative ones are
joined to the base URL, anything else is used unchanged. -/
def SchadeAutosClient.imageRequestURL (c : SchadeAutosClient)
    (imageURL : String) : String :=
  if hasPreStr imageURL "//" then "https:" ++ imageURL
  else if hasPreStr imageURL "/" then c.baseURL ++ imageURL
  else imageURL

/-- `SchadeAutosClient.fetchImageAsBase64`: resolve the URL, then issue one
GET (the image oracle). -/
def SchadeAutosClient.fetchImageAsBase64 (c : SchadeAutosClient)
    (imgO : String → Option String) (imageURL : String) : Option String :=
  imgO (c.imageRequestURL imageURL)

/-- The `for partID, stockPart := range ... stockParts` loop of
`SchadeAutosClient.FetchParts` (lines 182-206).  The `Part` literal
dereferences `parseEnterDate(stockPart.EnterDate)` without a nil check
(line 191), so an unparseable enter-date raises a runtime panic that
unwinds the whole call; a failed image fetch only leaves `ImageBase64`
empty. -/
def SchadeAutosClient.convertStockParts (c : SchadeAutosClient)
    (imgO : String → Option String) :
    List (String × StockPart) → List Part → FetchOutcome (List Part)
  | [], acc => FetchOutcome.ok acc
  | (partID, sp) :: rest, acc =>
    match parseEnterDate sp.EnterDate with
    | none => FetchOutcome.panic nilDerefMsg
    | some t =>
      let part : Part :=
        { ID := partID, Description := sp.Descr, TypeName := "",
          Name := sp.Name,
          ImageBase64 :=
            (if sp.Picture ≠ "" then
              match c.fetchImageAsBase64 imgO sp.Picture with
              | some b64 => b64
              | none => ""
            else ""),
          URL := c.buildPartURL partID, SiteID := c.siteID,
          Price := "€ " ++ sp.Price, CreationDate := some t }
      SchadeAutosClient.convertStockParts c imgO rest (acc ++ [part])

/-- `SchadeAutosClient.FetchParts`: one bulk POST (the form body built from
`params` only shapes the server's response, which the oracle supplies),
then per-item conversion. -/
def SchadeAutosClient.FetchParts (c : SchadeAutosClient)
    (oracle : Except String SchadeAutosResponse)
    (imgO : String → Option String) (_params : SearchParams) :
    FetchOutcome (List Part) :=
  match oracle with
  | Except.error e => FetchOutcome.err e
  | Except.ok resp => c.convertStockParts imgO resp.stockParts []

/-!
## Token-authenticated adapter (`EbayClient`)

Two oracles: the token oracle is the outcome of the OAuth
client-credentials exchange (`Except.error` collapses request creation,
connection failure, body read, non-200 status and JSON decode failure),
and the search oracle maps (bearer token in use, offset) to the outcome
of one search GET (`Except.error` likewise collapses transport failure,
non-200 status — including the decoded error-envelope message — and
JSON decode failure).  The source's search loop has no iteration bound;
`fuel` makes the recursion definable, and every theorem about the loop
either holds for all fuel or assumes enough fuel for the run it
describes.
-/

/-- `TokenResponse`. -/
structure TokenResponse where
  AccessToken : String := ""
  ExpiresIn : Int := 0
  TokenType : String := ""
  deriving DecidableEq, Repr

/-- The nested `price` object of an eBay item summary. -/
structure EbayPrice where
  Value : String := ""
  Currency : String := ""
  deriving DecidableEq, Repr

/-- One entry of `thumbnailImages`. -/
structure EbayThumbnail where
  ImageURL : String := ""
  deriving DecidableEq, Repr

/-- `EbayItem` (one element of `itemSummaries`); `ItemOriginDate = none`
models the zero `time.Time`. -/
structure EbayItem where
  ItemID : String := ""
  Title : String := ""
  Price : EbayPrice := {}
  Condition : String := ""
  ItemWebURL : String := ""
  ItemOriginDate : Option GoTime := none
  ThumbnailImages : List EbayThumbnail := []
  deriving DecidableEq, Repr

/-- `EbayBrowseResponse`. -/
structure EbayBrowseResponse where
  Total : Int := 0
  ItemSummaries : List EbayItem := []
  Limit : Int := 0
  Offset : Int := 0
  deriving DecidableEq, Repr

/-- `EbayClient`: configuration plus the mutable `accessToken` field. -/
structure EbayClient where
  baseURL : String
  siteID : Int
  accessToken : String
  clientID : String
  clientSecret : String
  isSandbox : Bool
  deriving DecidableEq, Repr

/-- `NewEbayClient`. -/
def EbayClient.new (siteID : Int) (appID clientSecret : String)
    (isSandbox : Bool) : EbayClient :=
  { baseURL := "https://svcs.ebay.com/services/search/FindingService/v1",
    siteID := siteID, accessToken := "", clientID := appID,
    clientSecret := clientSecret, isSandbox := isSandbox }

/-- `EbayClient.GetName`. -/
def EbayClient.GetName (_ : EbayClient) : String :=
  "eBay"

/-- `EbayClient.GetSiteID`. -/
def EbayClient.GetSiteID (c : EbayClient) : Int :=
  c.siteID

/-- `EbayClient.GetAccessToken` (lines 118-162): on success the decoded
access token is stored in `c.accessToken`; on any failure the field is
left unchanged and an error is returned. -/
def EbayClient.runGetAccessToken (c : EbayClient)
    (tokenOracle : Except String TokenResponse) :
    EbayClient × Except String Unit :=
  match tokenOracle with
  | Except.error e => (c, Except.error e)
  | Except.ok tr =>
    ({ c with accessToken := tr.AccessToken }, Except.ok ())

/-- The URL at which `EbayClient.fetchImageAsBase64` issues its image GET:
the source (lines 261-266) applies no resolution step, so the URL is used
exactly as given. -/
def EbayClient.imageRequestURL (imageURL : String) : String :=
  imageURL

/-- `EbayClient.fetchImageAsBase64`: one GET at the unmodified URL. -/
def EbayClient.fetchImageAsBase64 (imgO : String → Option String)
    (imageURL : String) : Option String :=
  imgO (EbayClient.imageRequestURL imageURL)

/-- The per-item conversion inside the search loop (lines 229-248). -/
def EbayClient.convertItem (c : EbayClient)
    (imgO : String → Option String) (item : EbayItem) : Part :=
  let part : Part :=
    { ID := item.ItemID, Description := item.Title, TypeName := "",
      Name := item.Title, ImageBase64 := "", URL := item.ItemWebURL,
      SiteID := c.siteID, Price := "€ " ++ item.Price.Value,
      CreationDate := item.ItemOriginDate }
  match item.ThumbnailImages with
  | [] => part
  | thumb :: _ =>
    if thumb.ImageURL ≠ "" then
      match EbayClient.fetchImageAsBase64 imgO thumb.ImageURL with
      | some b64 => { part with ImageBase64 := b64 }
      | none => part
    else part

/-- The offset-pagination loop of `EbayClient.FetchParts` (lines 180-256):
fixed page size 200, stop when a page converts to fewer than 200 parts,
any transport/status/decode failure is fatal.  The recursion is bounded
by `fuel` (see the section comment). -/
def EbayClient.fetchLoop (c : EbayClient)
    (searchOracle : String → Nat → Except String EbayBrowseResponse)
    (imgO : String → Option String) :
    Nat → Nat → List Part → Nat → FetchTrace
  | 0, _, acc, reqs => { result := Except.ok acc, requests := reqs }
  | Nat.succ fuel, offset, acc, reqs =>
    match searchOracle c.accessToken offset with
    | Except.error e => { result := Except.error e, requests := reqs + 1 }
    | Except.ok resp =>
      if (resp.ItemSummaries.map (c.convertItem imgO)).length < 200 then
        { result :=
            Except.ok (acc ++ resp.ItemSummaries.map (c.convertItem imgO)),
          requests := reqs + 1 }
      else
        EbayClient.fetchLoop c searchOracle imgO fuel (offset + 200)
          (acc ++ resp.ItemSummaries.map (c.convertItem imgO)) (reqs + 1)

/-- `EbayClient.FetchParts` (lines 173-257).  Line 175 calls
`c.GetAccessToken()` and discards its error, so a failed token exchange
does not abort the fetch: the loop proceeds with the previously stored
token (initially `""`). -/
def EbayClient.FetchParts (c : EbayClient)
    (tokenOracle : Except String TokenResponse)
    (searchOracle : String → Nat → Except String EbayBrowseResponse)
    (imgO : String → Option String) (fuel : Nat) : FetchTrace :=
  EbayClient.fetchLoop (c.runGetAccessToken tokenOracle).1 searchOracle
    imgO fuel 0 [] 0

/-!
## Unfolding lemmas for the pagination loops
-/

/-- Fuel exhaustion (`page > maxPages`): the loop exits returning the
accumulated parts with no error. -/
theorem KleinanzeigenClient.fetchLoop_zero (c : KleinanzeigenClient)
    (oracle : Nat → Except String (List KAItem))
    (imgO : String → Option String) (now : GoTime) (lim : Int)
    (page : Nat) (acc : List Part) (reqs : Nat) :
    KleinanzeigenClient.fetchLoop c oracle imgO now lim 0 page acc reqs =
      { result := Except.ok acc, requests := reqs } := rfl

/-- One failing page request is fatal to the whole fetch. -/
theorem KleinanzeigenClient.fetchLoop_succ_err {c : KleinanzeigenClient}
    {oracle : Nat → Except String (List KAItem)}
    {imgO : String → Option String} {now : GoTime} {lim : Int}
    {fuel page : Nat} {acc : List Part} {reqs : Nat} {e : String}
    (h : oracle page = Except.error e) :
    KleinanzeigenClient.fetchLoop c oracle imgO now lim (fuel + 1) page acc
        reqs =
      { result := Except.error
          ("failed to fetch page " ++ toString page ++ ": " ++ e),
        requests := reqs + 1 } := by
  rw [KleinanzeigenClient.fetchLoop, h]

/-- One successful page request: the body of the loop iteration. -/
theorem KleinanzeigenClient.fetchLoop_succ_ok {c : KleinanzeigenClient}
    {oracle : Nat → Except String (List KAItem)}
    {imgO : String → Option String} {now : GoTime} {lim : Int}
    {fuel page : Nat} {acc : List Part} {reqs : Nat} {raw : List KAItem}
    (h : oracle page = Except.ok raw) :
    KleinanzeigenClient.fetchLoop c oracle imgO now lim (fuel + 1) page acc
        reqs =
      (if (c.fetchSinglePage imgO now raw).length = 0 then
        { result := Except.ok acc, requests := reqs + 1 }
      else if (c.fetchSinglePage imgO now raw).length <
          KleinanzeigenClient.itemsPerPage then
        { result := Except.ok (acc ++ c.fetchSinglePage imgO now raw),
          requests := reqs + 1 }
      else if 0 < lim ∧
          lim ≤ ((acc ++ c.fetchSinglePage imgO now raw).length : Int) then
        { result := Except.ok
            ((acc ++ c.fetchSinglePage imgO now raw).take lim.toNat),
          requests := reqs + 1 }
      else
        KleinanzeigenClient.fetchLoop c oracle imgO now lim fuel (page + 1)
          (acc ++ c.fetchSinglePage imgO now raw) (reqs + 1)) := by
  rw [KleinanzeigenClient.fetchLoop, h]

/-- Fuel exhaustion for the eBay loop (an artifact of the embedding; see
the adapter's section comment). -/
theorem EbayClient.searchLoop_zero (c : EbayClient)
    (searchOracle : String → Nat → Except String EbayBrowseResponse)
    (imgO : String → Option String) (offset : Nat) (acc : List Part)
    (reqs : Nat) :
    EbayClient.fetchLoop c searchOracle imgO 0 offset acc reqs =
      { result := Except.ok acc, requests := reqs } := rfl

/-- One failing search request is fatal to the whole fetch. -/
theorem EbayClient.searchLoop_succ_err {c : EbayClient}
    {searchOracle : String → Nat → Except String EbayBrowseResponse}
    {imgO : String → Option String} {fuel offset : Nat} {acc : List Part}
    {reqs : Nat} {e : String}
    (h : searchOracle c.accessToken offset = Except.error e) :
    EbayClient.fetchLoop c searchOracle imgO (fuel + 1) offset acc reqs =
      { result := Except.error e, requests := reqs + 1 } := by
  rw [EbayClient.fetchLoop, h]

/-- One successful search request: the body of the loop iteration. -/
theorem EbayClient.searchLoop_succ_ok {c : EbayClient}
    {searchOracle : String → Nat → Except String EbayBrowseResponse}
    {imgO : String → Option String} {fuel offset : Nat} {acc : List Part}
    {reqs : Nat} {resp : EbayBrowseResponse}
    (h : searchOracle c.accessToken offset = Except.ok resp) :
    EbayClient.fetchLoop c searchOracle imgO (fuel + 1) offset acc reqs =
      (if (resp.ItemSummaries.map (c.convertItem imgO)).length < 200 then
        { result :=
            Except.ok (acc ++ resp.ItemSummaries.map (c.convertItem imgO)),
          requests := reqs + 1 }
      else
        EbayClient.fetchLoop c searchOracle imgO fuel (offset + 200)
          (acc ++ resp.ItemSummaries.map (c.convertItem imgO))
          (reqs + 1)) := by
  rw [EbayClient.fetchLoop, h]

/-!
## C8 — scraped adapter's date parser
-/

/-- C8: the scraped adapter's date parser, evaluated against a fixed "now",
maps "Heute, 14:05" to now's year/month/day at 14:05 in now's location,
and maps "01.02.2023" to February 1, 2023 (day-first, `time.Parse`
location UTC). -/
theorem C8_scraped_date_parsing (now : GoTime) :
    KleinanzeigenClient.parseDateText now "Heute, 14:05" =
      some { year := now.year, month := now.month, day := now.day,
             hour := 14, minute := 5, second := 0, loc := now.loc }
    ∧ KleinanzeigenClient.parseDateText now "01.02.2023" =
      some { year := 2023, month := 2, day := 1, hour := 0, minute := 0,
             second := 0, loc := "UTC" } :=
  ⟨rfl, rfl⟩

/-- C8 instantiated at a concrete simulated "now". -/
theorem C8_scraped_date_parsing_witness :
    KleinanzeigenClient.parseDateText
        { year := 2024, month := 5, day := 17, hour := 9, minute := 30,
          second := 0, loc := "Europe/Berlin" } "Heute, 14:05" =
      some { year := 2024, month := 5, day := 17, hour := 14, minute := 5,
             second := 0, loc := "Europe/Berlin" }
    ∧ KleinanzeigenClient.parseDateText
        { year := 2024, month := 5, day := 17, hour := 9, minute := 30,
          second := 0, loc := "Europe/Berlin" } "01.02.2023" =
      some { year := 2023, month := 2, day := 1, hour := 0, minute := 0,
             second := 0, loc := "UTC" } :=
  C8_scraped_date_parsing
    { year := 2024, month := 5, day := 17, hour := 9, minute := 30,
      second := 0, loc := "Europe/Berlin" }

/-!
## C5 — protocol-relative image URL resolution
-/

/-- C5 counterexample: the token-API adapter's image inliner does not
resolve the protocol-relative URL "//img.example/x.jpg" to
"https://img.example/x.jpg" — it issues its GET at the URL unchanged, so
the claim "in every adapter's image inliner" fails for `EbayClient`. -/
theorem C5_counterexample :
    EbayClient.imageRequestURL "//img.example/x.jpg" = "//img.example/x.jpg"
    ∧ EbayClient.imageRequestURL "//img.example/x.jpg" ≠
      "https://img.example/x.jpg" :=
  ⟨rfl, by decide⟩

/-- C5 as amended: the scraped and form-search adapters resolve a
protocol-relative image URL to its "https:" absolute form before issuing
the GET; the token-API adapter issues the GET at the URL unchanged. -/
theorem C5_image_url_resolution (c : SchadeAutosClient)
    (imgO : String → Option String) (u : String)
    (h : hasPreStr u "//" = true) :
    KleinanzeigenClient.fetchImageAsBase64 imgO u = imgO ("https:" ++ u)
    ∧ SchadeAutosClient.fetchImageAsBase64 c imgO u = imgO ("https:" ++ u)
    ∧ EbayClient.fetchImageAsBase64 imgO u = imgO u := by
  refine ⟨?_, ?_, rfl⟩
  · unfold KleinanzeigenClient.fetchImageAsBase64
      KleinanzeigenClient.imageRequestURL
    rw [h]
    simp
  · unfold SchadeAutosClient.fetchImageAsBase64
      SchadeAutosClient.imageRequestURL
    rw [h]
    simp

/-- An image oracle that only answers at the resolved absolute URL. -/
def c5imgO : String → Option String :=
  fun s => if s = "https://img.example/x.jpg" then some "aW1n" else none

/-- C5 amended, instantiated at "//img.example/x.jpg": the scraped and
form-search inliners hit the resolved URL (and get the image), the
token-API inliner hits the raw URL (and gets nothing). -/
theorem C5_image_url_resolution_witness :
    KleinanzeigenClient.fetchImageAsBase64 c5imgO "//img.example/x.jpg" =
      c5imgO ("https:" ++ "//img.example/x.jpg")
    ∧ SchadeAutosClient.fetchImageAsBase64 (SchadeAutosClient.new 3) c5imgO
        "//img.example/x.jpg" = c5imgO ("https:" ++ "//img.example/x.jpg")
    ∧ EbayClient.fetchImageAsBase64 c5imgO "//img.example/x.jpg" =
      c5imgO "//img.example/x.jpg" :=
  C5_image_url_resolution (SchadeAutosClient.new 3) c5imgO
    "//img.example/x.jpg" rfl

/-!
## C2 — unparseable enter-date in the form-search adapter
-/

/-- If any stock part of the list has an unparseable enter-date, the
conversion loop panics (nil-pointer dereference at
`*parseEnterDate(stockPart.EnterDate)`), whatever was accumulated. -/
theorem SchadeAutosClient.convertStockParts_panic (c : SchadeAutosClient)
    (imgO : String → Option String) :
    ∀ (l : List (String × StockPart)) (acc : List Part),
      (∃ e ∈ l, parseEnterDate e.2.EnterDate = none) →
      c.convertStockParts imgO l acc = FetchOutcome.panic nilDerefMsg := by
  intro l
  induction l with
  | nil => intro acc h; simp at h
  | cons hd tl ih =>
    obtain ⟨pid, sp⟩ := hd
    intro acc h
    rw [SchadeAutosClient.convertStockParts]
    cases hp : parseEnterDate sp.EnterDate with
    | none => rfl
    | some t =>
      rcases h with ⟨e, he, hbad⟩
      rcases List.mem_cons.mp he with rfl | hmem
      · exact absurd hbad (by simp [hp])
      · exact ih _ ⟨e, hmem, hbad⟩

/-- C2 as amended: a response containing at least one item whose
enter-date string is empty or matches none of the recognized layouts
makes the form-search adapter's `FetchParts` abort entirely — but by a
runtime panic (nil-pointer dereference), not by an error return; no
partial list and no error value are returned. -/
theorem C2_unparseable_date_panics (c : SchadeAutosClient)
    (oracle : Except String SchadeAutosResponse)
    (imgO : String → Option String) (params : SearchParams)
    (resp : SchadeAutosResponse) (hok : oracle = Except.ok resp)
    (hbad : ∃ e ∈ resp.stockParts, parseEnterDate e.2.EnterDate = none) :
    SchadeAutosClient.FetchParts c oracle imgO params =
      FetchOutcome.panic nilDerefMsg := by
  subst hok
  exact SchadeAutosClient.convertStockParts_panic c imgO _ _ hbad

/-- A stock part whose enter-date matches no recognized layout. -/
def c2sp : StockPart :=
  { Name := "Bumper", EnterDate := "yesterday", Price := "50" }

/-- A concrete form-search response with one item whose enter-date matches
no recognized layout. -/
def c2resp : SchadeAutosResponse :=
  { limited := false, descr := "", stockParts := [("12345", c2sp)] }

/-- C2 counterexample: on `c2resp` the form-search `FetchParts` panics; it
does not return an error (and does not return normally), contradicting
the claim that such a call "returns an error". -/
theorem C2_counterexample :
    SchadeAutosClient.FetchParts (SchadeAutosClient.new 2)
        (Except.ok c2resp) (fun _ => none) {} =
      FetchOutcome.panic nilDerefMsg
    ∧ (SchadeAutosClient.FetchParts (SchadeAutosClient.new 2)
        (Except.ok c2resp) (fun _ => none) {}).isErr = false
    ∧ (SchadeAutosClient.FetchParts (SchadeAutosClient.new 2)
        (Except.ok c2resp) (fun _ => none) {}).isOk = false :=
  ⟨rfl, rfl, rfl⟩

/-- C2 amended, instantiated: the panic on a concrete bad response, via
the amended theorem. -/
theorem C2_unparseable_date_panics_witness :
    SchadeAutosClient.FetchParts (SchadeAutosClient.new 4)
        (Except.ok c2resp) (fun _ => none) {} =
      FetchOutcome.panic nilDerefMsg :=
  C2_unparseable_date_panics (SchadeAutosClient.new 4) (Except.ok c2resp)
    (fun _ => none) {} c2resp rfl
    ⟨("12345", c2sp), by decide, by decide⟩

/-!
## C3 — eBay OAuth failure is silently ignored
-/

/-- The token-API adapter under a failing OAuth exchange. -/
def c3Ebay : EbayClient := EbayClient.new 5 "app-id" "app-secret" false

/-- A failing OAuth token exchange (non-200 from the token endpoint). -/
def c3tokenOracle : Except String TokenResponse :=
  Except.error "token request failed with status 500: server error"

/-- A search endpoint that answers 200 with zero items, whatever bearer
token (possibly empty) it is offered. -/
def c3searchOracle : String → Nat → Except String EbayBrowseResponse :=
  fun _ _ => Except.ok {}

/-- C3: the claim is right and the code is wrong.  `FetchParts` (line 175)
discards the error of `c.GetAccessToken()`, so a failed OAuth exchange
does not abort the call: with the search endpoint answering 200, the
fetch completes successfully (empty list, no error), and the stored
token is left unchanged (here `""`). -/
theorem C3_token_failure_not_fatal :
    (EbayClient.FetchParts c3Ebay c3tokenOracle c3searchOracle
        (fun _ => none) 100).result = Except.ok []
    ∧ (EbayClient.FetchParts c3Ebay c3tokenOracle c3searchOracle
        (fun _ => none) 100).requests = 1
    ∧ (c3Ebay.runGetAccessToken c3tokenOracle).1.accessToken = ""
    ∧ (c3Ebay.runGetAccessToken c3tokenOracle).2 =
      Except.error "token request failed with status 500: server error" :=
  ⟨rfl, rfl, rfl, rfl⟩

/-!
## Invariants of the scraped adapter's extraction and pagination
-/

/-- Characters of a concatenation. -/
theorem toList_append_str (a b : String) :
    (a ++ b).toList = a.toList ++ b.toList := by
  cases a
  cases b
  rfl

/-- A successfully extracted part carries the client's site id, a
non-empty id (the `data-adid`), a non-empty name (the trimmed title) and
a URL formed by appending the item's `data-href` to the base URL. -/
theorem KleinanzeigenClient.extractPart_ok_fields
    {c : KleinanzeigenClient} {imgO : String → Option String}
    {now : GoTime} {it : KAItem} {p : Part}
    (h : c.extractPart imgO now it = Except.ok p) :
    p.SiteID = c.siteID ∧ p.ID ≠ "" ∧ p.Name ≠ ""
      ∧ ∃ href, p.URL = c.baseURL ++ href := by
  simp only [KleinanzeigenClient.extractPart] at h
  repeat' split at h
  all_goals
    first
      | exact Except.noConfusion h
      | (injection h with h; subst h;
         exact ⟨rfl, by simp_all, by simp_all, _, rfl⟩)

/-- Every part produced by the page-extraction stage satisfies any
property enjoyed by all successful `extractPart` results. -/
theorem KleinanzeigenClient.fetchSinglePage_inv {P : Part → Prop}
    {c : KleinanzeigenClient} {imgO : String → Option String}
    {now : GoTime}
    (hext : ∀ it p, c.extractPart imgO now it = Except.ok p → P p)
    (raw : List KAItem) : ∀ p ∈ c.fetchSinglePage imgO now raw, P p := by
  intro p hp
  unfold KleinanzeigenClient.fetchSinglePage at hp
  rcases List.mem_filterMap.mp hp with ⟨it, _, hit⟩
  cases hE : c.extractPart imgO now it with
  | ok q =>
    rw [hE] at hit
    simp only [Option.some.injEq] at hit
    subst hit
    exact hext it q hE
  | error e =>
    rw [hE] at hit
    simp at hit

/-- Pagination-loop invariant: any per-part property guaranteed by
`extractPart` and holding on the accumulator holds on every part of a
successful result. -/
theorem KleinanzeigenClient.fetchLoop_inv {P : Part → Prop}
    (c : KleinanzeigenClient) (oracle : Nat → Except String (List KAItem))
    (imgO : String → Option String) (now : GoTime) (lim : Int)
    (hext : ∀ it p, c.extractPart imgO now it = Except.ok p → P p) :
    ∀ fuel page acc reqs, (∀ p ∈ acc, P p) →
      ∀ parts,
        (KleinanzeigenClient.fetchLoop c oracle imgO now lim fuel page acc
          reqs).result = Except.ok parts →
      ∀ p ∈ parts, P p := by
  intro fuel
  induction fuel with
  | zero =>
    intro page acc reqs hacc parts h
    rw [KleinanzeigenClient.fetchLoop_zero] at h
    simp only [Except.ok.injEq] at h
    subst h
    exact hacc
  | succ f ih =>
    intro page acc reqs hacc parts h
    cases hop : oracle page with
    | error e =>
      rw [KleinanzeigenClient.fetchLoop_succ_err hop] at h
      simp at h
    | ok raw =>
      rw [KleinanzeigenClient.fetchLoop_succ_ok hop] at h
      have hpg := KleinanzeigenClient.fetchSinglePage_inv hext raw
      split at h
      · simp only [Except.ok.injEq] at h
        subst h
        exact hacc
      · split at h
        · simp only [Except.ok.injEq] at h
          subst h
          intro p hp
          rcases List.mem_append.mp hp with hp | hp
          · exact hacc p hp
          · exact hpg p hp
        · split at h
          · simp only [Except.ok.injEq] at h
            subst h
            intro p hp
            have hp2 := List.take_subset _ _ hp
            rcases List.mem_append.mp hp2 with hp2 | hp2
            · exact hacc p hp2
            · exact hpg p hp2
          · refine ih (page + 1) _ (reqs + 1) ?_ parts h
            intro p hp
            rcases List.mem_append.mp hp with hp | hp
            · exact hacc p hp
            · exact hpg p hp

/-- Pagination-loop length bound, in the regime `0 < lim`: starting from
an accumulator strictly below the limit, a successful result has at most
`lim + 23` parts (truncation yields at most `lim`; the short-page break,
which precedes the limit check, can add up to 24 more to an accumulator
of at most `lim - 1`). -/
theorem KleinanzeigenClient.fetchLoop_length_inv (c : KleinanzeigenClient)
    (oracle : Nat → Except String (List KAItem))
    (imgO : String → Option String) (now : GoTime) (lim : Int)
    (hl : 0 < lim) :
    ∀ fuel page acc reqs, (acc.length : Int) < lim →
      ∀ parts,
        (KleinanzeigenClient.fetchLoop c oracle imgO now lim fuel page acc
          reqs).result = Except.ok parts →
      (parts.length : Int) ≤ lim + 23 := by
  intro fuel
  induction fuel with
  | zero =>
    intro page acc reqs hacc parts h
    rw [KleinanzeigenClient.fetchLoop_zero] at h
    simp only [Except.ok.injEq] at h
    subst h
    omega
  | succ f ih =>
    intro page acc reqs hacc parts h
    cases hop : oracle page with
    | error e =>
      rw [KleinanzeigenClient.fetchLoop_succ_err hop] at h
      simp at h
    | ok raw =>
      rw [KleinanzeigenClient.fetchLoop_succ_ok hop] at h
      split at h
      · simp only [Except.ok.injEq] at h
        subst h
        omega
      · split at h
        · rename_i hshort
          have h25 : KleinanzeigenClient.itemsPerPage = 25 := rfl
          rw [h25] at hshort
          simp only [Except.ok.injEq] at h
          subst h
          have hlen := List.length_append acc
            (c.fetchSinglePage imgO now raw)
          omega
        · split at h
          · simp only [Except.ok.injEq] at h
            subst h
            have hlen := List.length_take lim.toNat
              (acc ++ c.fetchSinglePage imgO now raw)
            omega
          · rename_i hnlim
            refine ih (page + 1) _ (reqs + 1) ?_ parts h
            have hlen := List.length_append acc
              (c.fetchSinglePage imgO now raw)
            push_neg at hnlim
            have h2 := hnlim hl
            omega

/-- Every part built by the form-search conversion loop carries the
client's site id. -/
theorem SchadeAutosClient.convertStockParts_siteID (c : SchadeAutosClient)
    (imgO : String → Option String) :
    ∀ (l : List (String × StockPart)) (acc : List Part),
      (∀ p ∈ acc, p.SiteID = c.siteID) →
      ∀ parts, c.convertStockParts imgO l acc = FetchOutcome.ok parts →
      ∀ p ∈ parts, p.SiteID = c.siteID := by
  intro l
  induction l with
  | nil =>
    intro acc hacc parts h
    simp only [SchadeAutosClient.convertStockParts] at h
    injection h with h
    subst h
    exact hacc
  | cons hd tl ih =>
    obtain ⟨pid, sp⟩ := hd
    intro acc hacc parts h
    rw [SchadeAutosClient.convertStockParts] at h
    cases hp : parseEnterDate sp.EnterDate with
    | none =>
      rw [hp] at h
      exact absurd h (by simp)
    | some t =>
      rw [hp] at h
      refine ih _ ?_ parts h
      intro p hp2
      rcases List.mem_append.mp hp2 with hp2 | hp2
      · exact hacc p hp2
      · rcases List.mem_singleton.mp hp2 with rfl
        rfl

/-- The per-item eBay conversion always stamps the client's site id. -/
theorem EbayClient.convertItem_siteID (c : EbayClient)
    (imgO : String → Option String) (item : EbayItem) :
    (c.convertItem imgO item).SiteID = c.siteID := by
  simp only [EbayClient.convertItem]
  repeat' split
  all_goals rfl

/-- eBay pagination-loop invariant for the site id. -/
theorem EbayClient.fetchLoop_siteID (c : EbayClient)
    (searchOracle : String → Nat → Except String EbayBrowseResponse)
    (imgO : String → Option String) :
    ∀ fuel offset acc reqs, (∀ p ∈ acc, p.SiteID = c.siteID) →
      ∀ parts,
        (EbayClient.fetchLoop c searchOracle imgO fuel offset acc
          reqs).result = Except.ok parts →
      ∀ p ∈ parts, p.SiteID = c.siteID := by
  intro fuel
  induction fuel with
  | zero =>
    intro offset acc reqs hacc parts h
    rw [EbayClient.searchLoop_zero] at h
    simp only [Except.ok.injEq] at h
    subst h
    exact hacc
  | succ f ih =>
    intro offset acc reqs hacc parts h
    cases hop : searchOracle c.accessToken offset with
    | error e =>
      rw [EbayClient.searchLoop_succ_err hop] at h
      simp at h
    | ok resp =>
      rw [EbayClient.searchLoop_succ_ok hop] at h
      have hmap : ∀ p ∈ resp.ItemSummaries.map (c.convertItem imgO),
          p.SiteID = c.siteID := by
        intro p hp
        rcases List.mem_map.mp hp with ⟨item, _, rfl⟩
        exact EbayClient.convertItem_siteID c imgO item
      split at h
      · simp only [Except.ok.injEq] at h
        subst h
        intro p hp
        rcases List.mem_append.mp hp with hp | hp
        · exact hacc p hp
        · exact hmap p hp
      · refine ih (offset + 200) _ (reqs + 1) ?_ parts h
        intro p hp
        rcases List.mem_append.mp hp with hp | hp
        · exact hacc p hp
        · exact hmap p hp

/-- `GetAccessToken` never changes the configured site id. -/
theorem EbayClient.runGetAccessToken_siteID (c : EbayClient)
    (tokenOracle : Except String TokenResponse) :
    (c.runGetAccessToken tokenOracle).1.siteID = c.siteID := by
  cases tokenOracle <;> rfl

/-!
## C6 — every returned part carries the adapter's site id
-/

/-- C6: for each of the three adapters, every `Part` of a successful
`FetchParts` result has `SiteID` equal to the adapter's configured source
identity `GetSiteID`. -/
theorem C6_siteid_matches :
    (∀ (c : KleinanzeigenClient) oracle imgO now params parts,
        (KleinanzeigenClient.FetchParts c oracle imgO now params).result =
          Except.ok parts →
        ∀ p ∈ parts, p.SiteID = c.GetSiteID)
    ∧ (∀ (c : SchadeAutosClient) oracle imgO params parts,
        SchadeAutosClient.FetchParts c oracle imgO params =
          FetchOutcome.ok parts →
        ∀ p ∈ parts, p.SiteID = c.GetSiteID)
    ∧ (∀ (c : EbayClient) tokenO searchO imgO fuel parts,
        (EbayClient.FetchParts c tokenO searchO imgO fuel).result =
          Except.ok parts →
        ∀ p ∈ parts, p.SiteID = c.GetSiteID) := by
  refine ⟨?_, ?_, ?_⟩
  · intro c oracle imgO now params parts h
    exact KleinanzeigenClient.fetchLoop_inv c oracle imgO now params.Limit
      (fun it p hp => (KleinanzeigenClient.extractPart_ok_fields hp).1)
      KleinanzeigenClient.maxPages 1 [] 0 (by simp) parts h
  · intro c oracle imgO params parts h
    unfold SchadeAutosClient.FetchParts at h
    cases oracle with
    | error e => exact absurd h (by simp)
    | ok resp =>
      exact SchadeAutosClient.convertStockParts_siteID c imgO
        resp.stockParts [] (by simp) parts h
  · intro c tokenO searchO imgO fuel parts h
    intro p hp
    have h2 := EbayClient.fetchLoop_siteID
      (c.runGetAccessToken tokenO).1 searchO imgO fuel 0 [] 0
      (by simp) parts h p hp
    rw [h2, EbayClient.runGetAccessToken_siteID]
    rfl

/-!
## C7 — zero-result first page
-/

/-- C7: if the first page yields zero extracted items, the scraped
adapter issues no further page requests and returns an empty list with
no error. -/
theorem C7_zero_first_page (c : KleinanzeigenClient)
    (oracle : Nat → Except String (List KAItem))
    (imgO : String → Option String) (now : GoTime) (params : SearchParams)
    (raw : List KAItem) (hor : oracle 1 = Except.ok raw)
    (hz : c.fetchSinglePage imgO now raw = []) :
    (c.FetchParts oracle imgO now params).result = Except.ok []
    ∧ (c.FetchParts oracle imgO now params).requests = 1 := by
  unfold KleinanzeigenClient.FetchParts
  rw [show KleinanzeigenClient.maxPages = 99 + 1 from rfl]
  rw [KleinanzeigenClient.fetchLoop_succ_ok hor, hz]
  simp

/-- A first page with markup but zero extractable items. -/
def c7oracle : Nat → Except String (List KAItem) :=
  fun _ => Except.ok []

/-- C7 instantiated: an empty first page gives one request, an empty
result and no error. -/
theorem C7_zero_first_page_witness :
    ((KleinanzeigenClient.new 7).FetchParts c7oracle (fun _ => none)
        { year := 2024, month := 5, day := 17, hour := 9, minute := 30,
          second := 0, loc := "UTC" } {}).result = Except.ok []
    ∧ ((KleinanzeigenClient.new 7).FetchParts c7oracle (fun _ => none)
        { year := 2024, month := 5, day := 17, hour := 9, minute := 30,
          second := 0, loc := "UTC" } {}).requests = 1 :=
  C7_zero_first_page (KleinanzeigenClient.new 7) c7oracle (fun _ => none)
    { year := 2024, month := 5, day := 17, hour := 9, minute := 30,
      second := 0, loc := "UTC" } {} [] rfl rfl

/-- A well-formed scraped listing item. -/
def c6item : KAItem :=
  { dataAdid := some "a1", dataHref := some "/p", title := "T",
    description := "", price := "", imgSrc := none, dateText := "" }

/-- A single-page oracle carrying `c6item` on page 1. -/
def c6oracle : Nat → Except String (List KAItem) :=
  fun n => if n = 1 then Except.ok [c6item] else Except.ok []

/-- The part the scraped adapter (site id 11) extracts from `c6item`. -/
def c6part : Part :=
  { ID := "a1", Description := "", TypeName := "", Name := "T",
    ImageBase64 := "", URL := "https://www.kleinanzeigen.de/p",
    SiteID := 11, Price := "", CreationDate := none }

/-- C6 instantiated on a concrete one-item scraped fetch. -/
theorem C6_siteid_matches_witness :
    c6part.SiteID = (KleinanzeigenClient.new 11).GetSiteID :=
  C6_siteid_matches.1 (KleinanzeigenClient.new 11) c6oracle (fun _ => none)
    { year := 2024, month := 5, day := 17, hour := 9, minute := 30,
      second := 0, loc := "UTC" } {} [c6part] rfl c6part (by decide)

/-!
## C9 — a malformed item is skipped, the page and the fetch survive
-/

/-- Splitting the extraction of a concatenated item list. -/
theorem KleinanzeigenClient.fetchSinglePage_append (c : KleinanzeigenClient)
    (imgO : String → Option String) (now : GoTime) (l1 l2 : List KAItem) :
    c.fetchSinglePage imgO now (l1 ++ l2) =
      c.fetchSinglePage imgO now l1 ++ c.fetchSinglePage imgO now l2 := by
  unfold KleinanzeigenClient.fetchSinglePage
  exact List.filterMap_append l1 l2 _

/-- An item failing extraction contributes nothing to the page. -/
theorem KleinanzeigenClient.fetchSinglePage_cons_bad
    (c : KleinanzeigenClient) (imgO : String → Option String)
    (now : GoTime) (bad : KAItem) (l : List KAItem) (msg : String)
    (hbad : c.extractPart imgO now bad = Except.error msg) :
    c.fetchSinglePage imgO now (bad :: l) =
      c.fetchSinglePage imgO now l := by
  unfold KleinanzeigenClient.fetchSinglePage
  rw [List.filterMap_cons, hbad]

/-- C9: on a first page containing an item that fails extraction
(missing identity attribute, missing URL attribute, or missing title),
the scraped adapter extracts the remaining items and the whole fetch
still succeeds with no error (stated for a final — shorter than full —
page, so the pagination stops there). -/
theorem C9_malformed_item_skipped (c : KleinanzeigenClient)
    (oracle : Nat → Except String (List KAItem))
    (imgO : String → Option String) (now : GoTime) (params : SearchParams)
    (l1 l2 : List KAItem) (bad : KAItem) (msg : String)
    (hbad : c.extractPart imgO now bad = Except.error msg)
    (hor : oracle 1 = Except.ok (l1 ++ bad :: l2))
    (hshort : (c.fetchSinglePage imgO now (l1 ++ bad :: l2)).length <
      KleinanzeigenClient.itemsPerPage) :
    (c.FetchParts oracle imgO now params).result =
      Except.ok (c.fetchSinglePage imgO now l1 ++
        c.fetchSinglePage imgO now l2)
    ∧ (c.FetchParts oracle imgO now params).requests = 1 := by
  have hsplit : c.fetchSinglePage imgO now (l1 ++ bad :: l2) =
      c.fetchSinglePage imgO now l1 ++ c.fetchSinglePage imgO now l2 := by
    rw [KleinanzeigenClient.fetchSinglePage_append,
      KleinanzeigenClient.fetchSinglePage_cons_bad c imgO now bad l2 msg
        hbad]
  unfold KleinanzeigenClient.FetchParts
  rw [show KleinanzeigenClient.maxPages = 99 + 1 from rfl]
  rw [KleinanzeigenClient.fetchLoop_succ_ok hor, hsplit]
  rw [hsplit] at hshort
  by_cases h0 :
      (c.fetchSinglePage imgO now l1 ++ c.fetchSinglePage imgO now l2).length
        = 0
  · rw [if_pos h0]
    have hnil := List.eq_nil_of_length_eq_zero h0
    rw [hnil]
    exact ⟨rfl, rfl⟩
  · rw [if_neg h0, if_pos hshort]
    constructor
    · simp
    · rfl

/-- Two well-formed items around one item missing its `data-adid`. -/
def c9good1 : KAItem :=
  { dataAdid := some "g1", dataHref := some "/g1", title := "T1",
    description := "", price := "", imgSrc := none, dateText := "" }

/-- Second well-formed item. -/
def c9good2 : KAItem :=
  { dataAdid := some "g2", dataHref := some "/g2", title := "T2",
    description := "", price := "", imgSrc := none, dateText := "" }

/-- An item that fails extraction: no `data-adid` attribute. -/
def c9bad : KAItem :=
  { dataAdid := none, dataHref := some "/b", title := "TB",
    description := "", price := "", imgSrc := none, dateText := "" }

/-- A one-page oracle whose first page holds good1, bad, good2. -/
def c9oracle : Nat → Except String (List KAItem) :=
  fun n =>
    if n = 1 then Except.ok ([c9good1] ++ c9bad :: [c9good2])
    else Except.ok []

/-- C9 instantiated: the malformed middle item is skipped, both good
items are returned, the fetch succeeds after one request. -/
theorem C9_malformed_item_skipped_witness :
    ((KleinanzeigenClient.new 8).FetchParts c9oracle (fun _ => none)
        { year := 2024, month := 5, day := 17, hour := 9, minute := 30,
          second := 0, loc := "UTC" } {}).result =
      Except.ok ((KleinanzeigenClient.new 8).fetchSinglePage (fun _ => none)
        { year := 2024, month := 5, day := 17, hour := 9, minute := 30,
          second := 0, loc := "UTC" } [c9good1] ++
        (KleinanzeigenClient.new 8).fetchSinglePage (fun _ => none)
        { year := 2024, month := 5, day := 17, hour := 9, minute := 30,
          second := 0, loc := "UTC" } [c9good2])
    ∧ ((KleinanzeigenClient.new 8).FetchParts c9oracle (fun _ => none)
        { year := 2024, month := 5, day := 17, hour := 9, minute := 30,
          second := 0, loc := "UTC" } {}).requests = 1 :=
  C9_malformed_item_skipped (KleinanzeigenClient.new 8) c9oracle
    (fun _ => none)
    { year := 2024, month := 5, day := 17, hour := 9, minute := 30,
      second := 0, loc := "UTC" } {} [c9good1] [c9good2] c9bad
    "missing data-adid" rfl rfl (by decide)

/-!
## C10 — shape of every scraped part
-/

/-- C10: every part returned by the scraped adapter (constructed with its
fixed base URL) has a non-empty id, a non-empty name, and a URL that is
the base URL "https://www.kleinanzeigen.de" followed by the item's
relative href — hence every URL starts with the base URL. -/
theorem C10_part_fields (siteID : Int)
    (oracle : Nat → Except String (List KAItem))
    (imgO : String → Option String) (now : GoTime) (params : SearchParams)
    (parts : List Part)
    (h : ((KleinanzeigenClient.new siteID).FetchParts oracle imgO now
        params).result = Except.ok parts) :
    ∀ p ∈ parts, p.ID ≠ "" ∧ p.Name ≠ ""
      ∧ (∃ href, p.URL = "https://www.kleinanzeigen.de" ++ href)
      ∧ "https://www.kleinanzeigen.de".toList <+: p.URL.toList := by
  refine KleinanzeigenClient.fetchLoop_inv (KleinanzeigenClient.new siteID)
    oracle imgO now params.Limit ?_ KleinanzeigenClient.maxPages 1 [] 0
    (by simp) parts h
  intro it p hp
  obtain ⟨-, hid, hname, href, hurl⟩ :=
    KleinanzeigenClient.extractPart_ok_fields hp
  refine ⟨hid, hname, ⟨href, hurl⟩, ?_⟩
  refine ⟨href.toList, ?_⟩
  rw [hurl]
  exact (toList_append_str _ _).symm

/-- The part extracted from `c6item` by the site-9 scraped adapter. -/
def c10part : Part :=
  { ID := "a1", Description := "", TypeName := "", Name := "T",
    ImageBase64 := "", URL := "https://www.kleinanzeigen.de/p",
    SiteID := 9, Price := "", CreationDate := none }

/-- C10 instantiated on a concrete one-item scraped fetch. -/
theorem C10_part_fields_witness :
    c10part.ID ≠ "" ∧ c10part.Name ≠ ""
      ∧ (∃ href, c10part.URL = "https://www.kleinanzeigen.de" ++ href)
      ∧ "https://www.kleinanzeigen.de".toList <+: c10part.URL.toList :=
  C10_part_fields 9 c6oracle (fun _ => none)
    { year := 2024, month := 5, day := 17, hour := 9, minute := 30,
      second := 0, loc := "UTC" } {} [c10part] rfl c10part (by decide)

/-!
## C1 — limit handling of the scraped adapter
-/

/-- C1 as amended: for a successful scraped fetch with `params.Limit > 0`,
the result holds at most `Limit + (itemsPerPage - 2)` parts.  The claimed
bound `max 1 Limit` fails because the short-page break precedes the limit
truncation: a final short page is appended without truncation and can
carry the total up to `itemsPerPage - 1` beyond an accumulator of at most
`Limit - 1`. -/
theorem C1_scraped_limit_bound (c : KleinanzeigenClient)
    (oracle : Nat → Except String (List KAItem))
    (imgO : String → Option String) (now : GoTime) (params : SearchParams)
    (hlim : 0 < params.Limit) (parts : List Part)
    (h : (c.FetchParts oracle imgO now params).result = Except.ok parts) :
    parts.length ≤ params.Limit.toNat +
      (KleinanzeigenClient.itemsPerPage - 2) := by
  have hbound := KleinanzeigenClient.fetchLoop_length_inv c oracle imgO now
    params.Limit hlim KleinanzeigenClient.maxPages 1 [] 0 (by simpa) parts h
  have h25 : KleinanzeigenClient.itemsPerPage - 2 = 23 := rfl
  rw [h25]
  omega

/-- A full page of 25 well-formed items. -/
def c1page1 : List KAItem :=
  List.replicate 25
    { dataAdid := some "x", dataHref := some "/p", title := "T",
      description := "", price := "", imgSrc := none, dateText := "" }

/-- A short final page of 2 well-formed items. -/
def c1page2 : List KAItem :=
  List.replicate 2
    { dataAdid := some "x", dataHref := some "/p", title := "T",
      description := "", price := "", imgSrc := none, dateText := "" }

/-- Page 1 is full, page 2 is short; later pages are never requested. -/
def c1oracle : Nat → Except String (List KAItem) :=
  fun n => if n = 1 then Except.ok c1page1 else Except.ok c1page2

/-- Search parameters with `Limit = 26`. -/
def c1params : SearchParams := { Limit := 26 }

/-- C1 counterexample: with `Limit = 26` and pages of sizes [25, 2], the
scraped fetch succeeds with 27 parts — more than `max 1 Limit = 26` —
because the short-page break fires before the limit truncation. -/
theorem C1_counterexample :
    Except.map List.length
        ((KleinanzeigenClient.new 1).FetchParts c1oracle (fun _ => none)
          { year := 2024, month := 5, day := 17, hour := 9, minute := 30,
            second := 0, loc := "UTC" } c1params).result = Except.ok 27
    ∧ c1params.Limit = 26
    ∧ ¬(27 ≤ max 1 26) :=
  ⟨rfl, rfl, by decide⟩

/-- The 27 parts of the counterexample run. -/
def c1parts : List Part :=
  (KleinanzeigenClient.new 1).fetchSinglePage (fun _ => none)
    { year := 2024, month := 5, day := 17, hour := 9, minute := 30,
      second := 0, loc := "UTC" } c1page1 ++
  (KleinanzeigenClient.new 1).fetchSinglePage (fun _ => none)
    { year := 2024, month := 5, day := 17, hour := 9, minute := 30,
      second := 0, loc := "UTC" } c1page2

/-- C1 amended, instantiated on the counterexample run: 27 ≤ 26 + 23. -/
theorem C1_scraped_limit_bound_witness :
    c1parts.length ≤ c1params.Limit.toNat +
      (KleinanzeigenClient.itemsPerPage - 2) :=
  C1_scraped_limit_bound (KleinanzeigenClient.new 1) c1oracle
    (fun _ => none)
    { year := 2024, month := 5, day := 17, hour := 9, minute := 30,
      second := 0, loc := "UTC" } c1params (by decide) c1parts rfl

/-!
## C4 — pagination termination on pages [P, P, P, k]
-/

/-- Running the scraped pagination loop (no limit) over three full pages
followed by a short page: exactly four iterations, all parts kept. -/
theorem KleinanzeigenClient.fetchLoop_four (c : KleinanzeigenClient)
    (oracle : Nat → Except String (List KAItem))
    (imgO : String → Option String) (now : GoTime) (fuel page : Nat)
    (acc : List Part) (reqs : Nat) (raw1 raw2 raw3 raw4 : List KAItem)
    (k : Nat)
    (h1 : oracle page = Except.ok raw1)
    (l1 : (c.fetchSinglePage imgO now raw1).length = 25)
    (h2 : oracle (page + 1) = Except.ok raw2)
    (l2 : (c.fetchSinglePage imgO now raw2).length = 25)
    (h3 : oracle (page + 1 + 1) = Except.ok raw3)
    (l3 : (c.fetchSinglePage imgO now raw3).length = 25)
    (h4 : oracle (page + 1 + 1 + 1) = Except.ok raw4)
    (l4 : (c.fetchSinglePage imgO now raw4).length = k)
    (hk : k < 25) :
    KleinanzeigenClient.fetchLoop c oracle imgO now 0 (fuel + 4) page acc
        reqs =
      { result := Except.ok
          ((((acc ++ c.fetchSinglePage imgO now raw1) ++
            c.fetchSinglePage imgO now raw2) ++
            c.fetchSinglePage imgO now raw3) ++
            c.fetchSinglePage imgO now raw4),
        requests := reqs + 1 + 1 + 1 + 1 } := by
  rw [show fuel + 4 = fuel + 3 + 1 from rfl]
  rw [KleinanzeigenClient.fetchLoop_succ_ok h1, l1]
  rw [if_neg (by norm_num),
    if_neg (by norm_num [KleinanzeigenClient.itemsPerPage]),
    if_neg (by norm_num)]
  rw [show fuel + 3 = fuel + 2 + 1 from rfl]
  rw [KleinanzeigenClient.fetchLoop_succ_ok h2, l2]
  rw [if_neg (by norm_num),
    if_neg (by norm_num [KleinanzeigenClient.itemsPerPage]),
    if_neg (by norm_num)]
  rw [show fuel + 2 = fuel + 1 + 1 from rfl]
  rw [KleinanzeigenClient.fetchLoop_succ_ok h3, l3]
  rw [if_neg (by norm_num),
    if_neg (by norm_num [KleinanzeigenClient.itemsPerPage]),
    if_neg (by norm_num)]
  rw [KleinanzeigenClient.fetchLoop_succ_ok h4, l4]
  by_cases hk0 : k = 0
  · rw [if_pos hk0]
    have h4nil : c.fetchSinglePage imgO now raw4 = [] :=
      List.eq_nil_of_length_eq_zero (by omega)
    rw [h4nil, List.append_nil]
  · rw [if_neg hk0,
      if_pos (show k < KleinanzeigenClient.itemsPerPage from hk)]

/-- Running the eBay pagination loop over three full pages followed by a
short page: exactly four iterations, all parts kept. -/
theorem EbayClient.searchLoop_four (c : EbayClient)
    (searchOracle : String → Nat → Except String EbayBrowseResponse)
    (imgO : String → Option String) (fuel offset : Nat) (acc : List Part)
    (reqs : Nat) (r1 r2 r3 r4 : EbayBrowseResponse) (k : Nat)
    (h1 : searchOracle c.accessToken offset = Except.ok r1)
    (l1 : r1.ItemSummaries.length = 200)
    (h2 : searchOracle c.accessToken (offset + 200) = Except.ok r2)
    (l2 : r2.ItemSummaries.length = 200)
    (h3 : searchOracle c.accessToken (offset + 200 + 200) = Except.ok r3)
    (l3 : r3.ItemSummaries.length = 200)
    (h4 : searchOracle c.accessToken (offset + 200 + 200 + 200) =
      Except.ok r4)
    (l4 : r4.ItemSummaries.length = k) (hk : k < 200) :
    EbayClient.fetchLoop c searchOracle imgO (fuel + 4) offset acc reqs =
      { result := Except.ok
          ((((acc ++ r1.ItemSummaries.map (c.convertItem imgO)) ++
            r2.ItemSummaries.map (c.convertItem imgO)) ++
            r3.ItemSummaries.map (c.convertItem imgO)) ++
            r4.ItemSummaries.map (c.convertItem imgO)),
        requests := reqs + 1 + 1 + 1 + 1 } := by
  rw [show fuel + 4 = fuel + 3 + 1 from rfl]
  rw [EbayClient.searchLoop_succ_ok h1]
  rw [if_neg (by simp [List.length_map, l1])]
  rw [show fuel + 3 = fuel + 2 + 1 from rfl]
  rw [EbayClient.searchLoop_succ_ok h2]
  rw [if_neg (by simp [List.length_map, l2])]
  rw [show fuel + 2 = fuel + 1 + 1 from rfl]
  rw [EbayClient.searchLoop_succ_ok h3]
  rw [if_neg (by simp [List.length_map, l3])]
  rw [EbayClient.searchLoop_succ_ok h4]
  rw [if_pos (by simp [List.length_map, l4, hk])]

/-- C4: with a source delivering pages of sizes [P, P, P, k], k < P, and
no limit truncation applicable, each paginating adapter issues exactly 4
page requests and returns 3P + k parts (P = 25 for the scraped adapter
with `Limit = 0`; P = 200 for the token-API adapter, which applies no
limit at all, granted enough fuel for its unbounded source loop). -/
theorem C4_pagination_termination :
    (∀ (c : KleinanzeigenClient)
        (oracle : Nat → Except String (List KAItem))
        (imgO : String → Option String) (now : GoTime)
        (params : SearchParams) (raw1 raw2 raw3 raw4 : List KAItem)
        (k : Nat),
      params.Limit = 0 →
      oracle 1 = Except.ok raw1 →
      (c.fetchSinglePage imgO now raw1).length = 25 →
      oracle 2 = Except.ok raw2 →
      (c.fetchSinglePage imgO now raw2).length = 25 →
      oracle 3 = Except.ok raw3 →
      (c.fetchSinglePage imgO now raw3).length = 25 →
      oracle 4 = Except.ok raw4 →
      (c.fetchSinglePage imgO now raw4).length = k →
      k < 25 →
      (c.FetchParts oracle imgO now params).requests = 4
      ∧ Except.map List.length
          (c.FetchParts oracle imgO now params).result =
        Except.ok (3 * 25 + k))
    ∧ (∀ (c : EbayClient) (tokenO : Except String TokenResponse)
        (searchO : String → Nat → Except String EbayBrowseResponse)
        (imgO : String → Option String) (fuel : Nat)
        (r1 r2 r3 r4 : EbayBrowseResponse) (k : Nat),
      4 ≤ fuel →
      (∀ t, searchO t 0 = Except.ok r1) → r1.ItemSummaries.length = 200 →
      (∀ t, searchO t 200 = Except.ok r2) → r2.ItemSummaries.length = 200 →
      (∀ t, searchO t 400 = Except.ok r3) → r3.ItemSummaries.length = 200 →
      (∀ t, searchO t 600 = Except.ok r4) → r4.ItemSummaries.length = k →
      k < 200 →
      (EbayClient.FetchParts c tokenO searchO imgO fuel).requests = 4
      ∧ Except.map List.length
          (EbayClient.FetchParts c tokenO searchO imgO fuel).result =
        Except.ok (3 * 200 + k)) := by
  constructor
  · intro c oracle imgO now params raw1 raw2 raw3 raw4 k hlim h1 l1 h2 l2
      h3 l3 h4 l4 hk
    unfold KleinanzeigenClient.FetchParts
    rw [hlim, show KleinanzeigenClient.maxPages = 96 + 4 from rfl]
    rw [KleinanzeigenClient.fetchLoop_four c oracle imgO now 96 1 [] 0
      raw1 raw2 raw3 raw4 k h1 l1 (show oracle (1 + 1) = _ from h2) l2
      (show oracle (1 + 1 + 1) = _ from h3) l3
      (show oracle (1 + 1 + 1 + 1) = _ from h4) l4 hk]
    refine ⟨rfl, ?_⟩
    simp only [Except.map, List.length_append, l1, l2, l3, l4,
      List.length_nil, Except.ok.injEq]
  · intro c tokenO searchO imgO fuel r1 r2 r3 r4 k hfuel h1 l1 h2 l2 h3 l3
      h4 l4 hk
    obtain ⟨f, rfl⟩ : ∃ f, fuel = f + 4 := ⟨fuel - 4, by omega⟩
    unfold EbayClient.FetchParts
    rw [EbayClient.searchLoop_four (c.runGetAccessToken tokenO).1 searchO
      imgO f 0 [] 0 r1 r2 r3 r4 k (h1 _) l1
      (show searchO _ (0 + 200) = _ from h2 _) l2
      (show searchO _ (0 + 200 + 200) = _ from h3 _) l3
      (show searchO _ (0 + 200 + 200 + 200) = _ from h4 _) l4 hk]
    refine ⟨rfl, ?_⟩
    simp only [Except.map, List.length_append, List.length_map, l1, l2,
      l3, l4, List.length_nil, Except.ok.injEq]

/-- A well-formed scraped item for the C4 witness. -/
def c4item : KAItem :=
  { dataAdid := some "x", dataHref := some "/p", title := "T",
    description := "", price := "", imgSrc := none, dateText := "" }

/-- A full page of 25 items. -/
def c4full : List KAItem := List.replicate 25 c4item

/-- A short final page of 3 items. -/
def c4last : List KAItem := List.replicate 3 c4item

/-- Pages 1-3 full, page 4 short. -/
def c4oracle : Nat → Except String (List KAItem) :=
  fun n => if n ≤ 3 then Except.ok c4full else Except.ok c4last

/-- A full eBay page of 200 items. -/
def c4ebFull : EbayBrowseResponse :=
  { ItemSummaries := List.replicate 200 {} }

/-- A short final eBay page of 7 items. -/
def c4ebLast : EbayBrowseResponse :=
  { ItemSummaries := List.replicate 7 {} }

/-- Offsets 0, 200, 400 full; offset 600 short. -/
def c4ebOracle : String → Nat → Except String EbayBrowseResponse :=
  fun _ off => if off ≤ 400 then Except.ok c4ebFull else Except.ok c4ebLast

/-- C4 instantiated: [25,25,25,3] for the scraped adapter and
[200,200,200,7] for the token-API adapter. -/
theorem C4_pagination_termination_witness :
    (((KleinanzeigenClient.new 1).FetchParts c4oracle (fun _ => none)
        { year := 2024, month := 5, day := 17, hour := 9, minute := 30,
          second := 0, loc := "UTC" } {}).requests = 4
      ∧ Except.map List.length
          ((KleinanzeigenClient.new 1).FetchParts c4oracle (fun _ => none)
            { year := 2024, month := 5, day := 17, hour := 9, minute := 30,
              second := 0, loc := "UTC" } {}).result =
        Except.ok (3 * 25 + 3))
    ∧ (((EbayClient.new 5 "app-id" "app-secret" false).FetchParts
          (Except.ok {}) c4ebOracle (fun _ => none) 4).requests = 4
      ∧ Except.map List.length
          ((EbayClient.new 5 "app-id" "app-secret" false).FetchParts
            (Except.ok {}) c4ebOracle (fun _ => none) 4).result =
        Except.ok (3 * 200 + 7)) :=
  ⟨C4_pagination_termination.1 (KleinanzeigenClient.new 1) c4oracle
      (fun _ => none)
      { year := 2024, month := 5, day := 17, hour := 9, minute := 30,
        second := 0, loc := "UTC" } {} c4full c4full c4full c4last 3
      rfl rfl rfl rfl rfl rfl rfl rfl rfl (by decide),
    C4_pagination_termination.2 (EbayClient.new 5 "app-id" "app-secret"
        false) (Except.ok {}) c4ebOracle (fun _ => none) 4
      c4ebFull c4ebFull c4ebFull c4ebLast 7 (by decide)
      (fun _ => rfl) rfl (fun _ => rfl) rfl (fun _ => rfl) rfl
      (fun _ => rfl) rfl (by decide)⟩

end DsmPartsFinder
